import Mathlib

/-!
Verification development for the AAM adapter layer (`aam/base.py`).

The Python module orchestrates: selecting a pyramidal level, scaling weight
vectors by square roots of PCA eigenvalues, instantiating shape/appearance
subspace models, building a variant-specific reference frame, warping the
appearance into it, and serializing the model fields.  External framework
operations (menpo PCA models, warp-to-mask, the reference-frame utilities from
`aam/utils.py`, the random source) are modelled as abstract components of an
environment record; the local orchestration is embedded faithfully, including
numpy's 1-D broadcasting semantics of the scaling line and Python's list
vs. ndarray in-place `*=` behaviour.
-/

/-- Triangle list of a mesh: triples of vertex indices. -/
abbrev Trilist := List (Nat × Nat × Nat)

/-- Landmark geometry: menpo's `PointCloud`, or `TriMesh` which additionally
carries a triangle list.  `type(x) == TriMesh` in the source corresponds to the
`triMesh` constructor. -/
inductive Shape where
  | pointCloud (points : List (ℚ × ℚ))
  | triMesh (points : List (ℚ × ℚ)) (trilist : Trilist)
deriving DecidableEq, Repr

/-- The triangle list carried by a shape, when it is a `TriMesh`. -/
def Shape.trilistOf : Shape → Option Trilist
  | .pointCloud _ => none
  | .triMesh _ t => some t

/-- Whether the value is exactly a `TriMesh` (Python `type(x) == TriMesh`). -/
def Shape.isTriMesh : Shape → Bool
  | .pointCloud _ => false
  | .triMesh _ _ => true

/-- A menpo landmark manager, collapsed to the association of group label to
the group's `.lms` shape (`x.landmarks['source'].lms` becomes a lookup). -/
abbrev Landmarks := List (String × Shape)

/-- An image: abstract pixel payload plus its attached landmark manager. -/
structure Image where
  pixels : Nat
  landmarks : Landmarks
deriving DecidableEq, Repr

/-- Abstract spatial mask of a reference frame. -/
abbrev Mask := Nat

/-- Which geometric transform constructor the model stores in its `transform`
field (`ThinPlateSplines` is hardcoded by the patch variants). -/
inductive TransformKind where
  | thinPlateSplines
  | other (id : Nat)
deriving DecidableEq, Repr

/-- A constructed transform: the stored constructor applied to two positional
arguments, recorded as given (`self.transform(arg1, arg2)` in the source). -/
structure Transform where
  kind : TransformKind
  arg1 : Shape
  arg2 : Shape
deriving DecidableEq, Repr

/-- Modelled from the spec: `build_reference_frame` and
`build_patch_reference_frame` live in `aam/utils.py`, which is not among the
provided sources.  Per the spec a built frame exposes a spatial mask and a
landmark attachment holding the frame's own projected landmark positions, and
the mask follows the triangulation (dense) or the patch grid (patch).  We
record the construction inputs and obtain mask and landmarks from the
environment. -/
structure Frame where
  builtFrom : Shape
  trilistUsed : Option Trilist
  patchShapeUsed : Option (Nat × Nat)
  mask : Mask
  landmarks : Landmarks
deriving DecidableEq, Repr

/-- State of the process-wide random source. -/
abbrev RNG := Nat

/-- The external framework surface consumed by the adapter: elementwise
`** 0.5` (real square root, abstracted), `warp_to_mask`, the unknown parts of
the reference-frame builders, and `np.random.randn`. -/
structure Env where
  sqrt : ℚ → ℚ
  warp : Image → Mask → Transform → Image
  refMask : Shape → Option Trilist → Mask
  refLandmarks : Shape → Option Trilist → Landmarks
  patchMask : Shape → Nat × Nat → Mask
  patchLandmarks : Shape → Nat × Nat → Landmarks
  randn : Nat → RNG → List ℚ × RNG
  randn_length : ∀ n g, (randn n g).1.length = n

/-- Modelled from the spec: dense reference-frame construction
(`build_reference_frame(reference_shape, trilist=trilist)` from
`aam/utils.py`, absent from the sources).  The frame records its inputs; mask
and landmarks come from the environment. -/
def build_reference_frame (env : Env) (reference_shape : Shape)
    (trilist : Option Trilist) : Frame :=
  { builtFrom := reference_shape
    trilistUsed := trilist
    patchShapeUsed := none
    mask := env.refMask reference_shape trilist
    landmarks := env.refLandmarks reference_shape trilist }

/-- Modelled from the spec: patch reference-frame construction
(`build_patch_reference_frame(reference_shape, patch_shape=...)` from
`aam/utils.py`, absent from the sources). -/
def build_patch_reference_frame (env : Env) (reference_shape : Shape)
    (patch_shape : Nat × Nat) : Frame :=
  { builtFrom := reference_shape
    trilistUsed := none
    patchShapeUsed := some patch_shape
    mask := env.patchMask reference_shape patch_shape
    landmarks := env.patchLandmarks reference_shape patch_shape }

/-- Errors the orchestration can raise, in the source's own terms.  The spec's
taxonomy maps `valueError` (numpy broadcast failure) to `InvalidArgument` and
`attributeError` (a variant lacking `_instance`) to `UnsupportedOperation`. -/
inductive Err where
  | indexError
  | keyError (k : String)
  | valueError
  | attributeError
deriving DecidableEq, Repr

/-- A menpo PCA shape model as used here: ordered eigenvalues, the active
component count, and the instantiation operation (`sm.instance(weights)`,
named `inst` since `instance` is reserved in Lean). -/
structure ShapeModel where
  eigenvalues : List ℚ
  n_active_components : Nat
  inst : List ℚ → Shape

/-- A menpo PCA appearance model: as `ShapeModel` but instantiating images,
plus the mean appearance template. -/
structure AppearanceModel where
  eigenvalues : List ℚ
  n_active_components : Nat
  inst : List ℚ → Image
  mean : Image

/-- The five concrete AAM classes of `aam/base.py`. -/
inductive Variant where
  | globalAAM
  | patchAAM
  | linearGlobalAAM
  | linearPatchAAM
  | partsAAM
deriving DecidableEq, Repr

/-- Per-level feature callables: a single shared one (`scale_features` true)
or one per level.  Callables are abstract identifiers. -/
inductive FeatureSpec where
  | single (f : Nat)
  | perLevel (fs : List Nat)
deriving DecidableEq, Repr

/-- An AAM object.  Fields a given variant's constructor does not set are
`none` (`transform` is absent exactly on `PartsAAM`; `patch_shape`,
`parts_shape` and `n_landmarks` exist only on the variants whose constructors
assign them). -/
structure AAM where
  variant : Variant
  shape_models : List ShapeModel
  appearance_models : List AppearanceModel
  reference_shape : Shape
  transform : Option TransformKind
  patch_shape : Option (Nat × Nat)
  parts_shape : Option (Nat × Nat)
  n_landmarks : Option Nat
  features : FeatureSpec
  sigma : ℚ
  scales : List ℚ
  scale_shapes : Bool
  scale_features : Bool

/-- The number of scale levels, `len(self.scales)`. -/
def AAM.n_levels (A : AAM) : Nat := A.scales.length

/-- Python list indexing with negative indices; `none` is an `IndexError`. -/
def pyGet {α : Type} (l : List α) (i : ℤ) : Option α :=
  let j : ℤ := if i < 0 then i + l.length else i
  if 0 ≤ j then l.get? j.toNat else none

/-- Numpy 1-D broadcasting multiply of two vectors: elementwise when the
lengths agree, a length-1 operand is stretched, anything else is a
`ValueError`. -/
def npBroadcastMul (xs ys : List ℚ) : Option (List ℚ) :=
  if xs.length = ys.length then some (List.zipWith (fun a b => a * b) xs ys)
  else
    match xs, ys with
    | [a], _ => some (ys.map (fun b => a * b))
    | _, [b] => some (xs.map (fun a => a * b))
    | _, _ => none

/-- A caller-supplied weight vector, remembering whether it arrived as a
Python list or as a numpy array (the docstring allows both); the distinction
matters only for the in-place `*=`. -/
inductive Weights where
  | pylist (xs : List ℚ)
  | ndarray (xs : List ℚ)
deriving DecidableEq, Repr

/-- The numeric contents of a weight vector. -/
def Weights.vals : Weights → List ℚ
  | .pylist xs => xs
  | .ndarray xs => xs

/-- The sliced, square-rooted eigenvalue vector `eigenvalues[:n] ** 0.5`. -/
def sqrtSlice (env : Env) (eigs : List ℚ) (n : Nat) : List ℚ :=
  (eigs.take n).map env.sqrt

/-- The scaling line `weights *= sm.eigenvalues[:len(weights)] ** 0.5`.
For a list, `*=` falls back to numpy's binary broadcast multiply and rebinds;
for an ndarray it is an in-place ufunc call, which additionally requires the
broadcast result to have the array's own shape. -/
def scaleWeightsStep (env : Env) (w : Weights) (eigs : List ℚ) :
    Option (List ℚ) :=
  match npBroadcastMul w.vals (sqrtSlice env eigs w.vals.length) with
  | none => none
  | some v =>
    match w with
    | .pylist _ => some v
    | .ndarray xs => if v.length = xs.length then some v else none

/-- What the caller's variable refers to after the scaling step: an ndarray
argument has been multiplied in place, a list (or an omitted argument) is
untouched. -/
def mutAfter : Option Weights → List ℚ → Option Weights
  | some (.ndarray _), v => some (.ndarray v)
  | w, _ => w

/-- `GlobalAAM._build_reference_frame`: the triangle list is taken from the
`landmarks` argument when that value is exactly a `TriMesh`, otherwise the
frame is built with `trilist=None`. -/
def globalBuildReferenceFrame (env : Env) (reference_shape : Shape)
    (landmarks : Shape) : Frame :=
  let trilist :=
    match landmarks with
    | .triMesh _ t => some t
    | _ => none
  build_reference_frame env reference_shape trilist

/-- `PatchAAM._build_reference_frame`: ignores its second argument and builds
a patch frame from the configured patch shape (read off the object; the patch
constructor always sets it). -/
def patchBuildReferenceFrame (env : Env) (A : AAM) (reference_shape : Shape) :
    Frame :=
  build_patch_reference_frame env reference_shape (A.patch_shape.getD (0, 0))

/-- The shared `_instance` body of `GlobalAAM` and `PatchAAM` (their sources
are textually identical apart from the frame builder): fetch the level's mean
template and its `'source'` landmarks, build the reference frame, construct
`self.transform(frame_landmarks, template_landmarks)`, warp the appearance
instance into the frame's mask, and overwrite the result's landmarks with the
frame's. -/
def composeInstance (env : Env) (A : AAM) (level : ℤ)
    (buildFrame : Shape → Shape → Frame)
    (shape_instance : Shape) (appearance_instance : Image) :
    Except Err Image :=
  match pyGet A.appearance_models level with
  | none => .error .indexError
  | some am =>
    match am.mean.landmarks.lookup "source" with
    | none => .error (.keyError "source")
    | some landmarks =>
      let reference_frame := buildFrame shape_instance landmarks
      match reference_frame.landmarks.lookup "source" with
      | none => .error (.keyError "source")
      | some frameLms =>
        match A.transform with
        | none => .error .attributeError
        | some tk =>
          let t : Transform :=
            { kind := tk, arg1 := frameLms, arg2 := landmarks }
          let warped := env.warp appearance_instance reference_frame.mask t
          .ok { warped with landmarks := reference_frame.landmarks }

/-- Dispatch of `self._instance(level, shape_instance, appearance_instance)`.
Only `GlobalAAM` and `PatchAAM` define `_instance`; on the linear and parts
variants the attribute access raises `AttributeError` (the spec's
`UnsupportedOperation`). -/
def AAM.underscoreInstance (env : Env) (A : AAM) (level : ℤ)
    (shape_instance : Shape) (appearance_instance : Image) :
    Except Err Image :=
  match A.variant with
  | .globalAAM =>
      composeInstance env A level (globalBuildReferenceFrame env)
        shape_instance appearance_instance
  | .patchAAM =>
      composeInstance env A level
        (fun s _ => patchBuildReferenceFrame env A s)
        shape_instance appearance_instance
  | _ => .error .attributeError

/-- `AAM.instance` (named `instanceFull` here; `instance` is reserved in
Lean), additionally returning what the caller's two weight arguments refer to
after the call, so that argument mutation is observable.  Follows the source
line by line: index both model lists, default omitted weights to the
single-element list `[0]`, scale shape weights and instantiate, scale
appearance weights and instantiate, then `self._instance(...)`. -/
def AAM.instanceFull (env : Env) (A : AAM)
    (shape_weights appearance_weights : Option Weights) (level : ℤ) :
    Except Err Image × Option Weights × Option Weights :=
  match pyGet A.shape_models level with
  | none => (.error .indexError, shape_weights, appearance_weights)
  | some sm =>
    match pyGet A.appearance_models level with
    | none => (.error .indexError, shape_weights, appearance_weights)
    | some am =>
      let sw := shape_weights.getD (.pylist [0])
      let aw := appearance_weights.getD (.pylist [0])
      match scaleWeightsStep env sw sm.eigenvalues with
      | none => (.error .valueError, shape_weights, appearance_weights)
      | some sv =>
        let shape_after := mutAfter shape_weights sv
        let shape_instance := sm.inst sv
        match scaleWeightsStep env aw am.eigenvalues with
        | none => (.error .valueError, shape_after, appearance_weights)
        | some av =>
          let appearance_after := mutAfter appearance_weights av
          let appearance_instance := am.inst av
          (A.underscoreInstance env level shape_instance appearance_instance,
           shape_after, appearance_after)

/-- The image returned by `AAM.instance` (first component of
`instanceFull`). -/
def AAM.instanceIm (env : Env) (A : AAM)
    (shape_weights appearance_weights : Option Weights) (level : ℤ) :
    Except Err Image :=
  (A.instanceFull env shape_weights appearance_weights level).1

/-- `AAM.random_instance`: draw `randn(n_active_components)` for each model,
scale by `eigenvalues[:n_active_components] ** 0.5`, instantiate, and compose
through the same `_instance` dispatch.  The random state is threaded. -/
def AAM.random_instance (env : Env) (A : AAM) (g : RNG) (level : ℤ) :
    Except Err Image × RNG :=
  match pyGet A.shape_models level with
  | none => (.error .indexError, g)
  | some sm =>
    match pyGet A.appearance_models level with
    | none => (.error .indexError, g)
    | some am =>
      let p1 := env.randn sm.n_active_components g
      match npBroadcastMul p1.1
          (sqrtSlice env sm.eigenvalues sm.n_active_components) with
      | none => (.error .valueError, p1.2)
      | some sv =>
        let shape_instance := sm.inst sv
        let p2 := env.randn am.n_active_components p1.2
        match npBroadcastMul p2.1
            (sqrtSlice env am.eigenvalues am.n_active_components) with
        | none => (.error .valueError, p2.2)
        | some av =>
          (A.underscoreInstance env level shape_instance (am.inst av), p2.2)

/-- A value stored in an object's `__dict__`, as far as serialization needs to
distinguish it: the concrete field payloads, Python lists, and
`SerializableCallable` wrappers (a wrapped value plus the module names passed
as resolution context). -/
inductive FieldValue where
  | shapeModelsV (l : List ShapeModel)
  | appearanceModelsV (l : List AppearanceModel)
  | shapeV (s : Shape)
  | transformV (k : TransformKind)
  | natV (n : Nat)
  | natPairV (p : Nat × Nat)
  | ratV (q : ℚ)
  | ratListV (l : List ℚ)
  | boolV (b : Bool)
  | featureV (f : Nat)
  | listV (vs : List FieldValue)
  | serializableV (v : FieldValue) (modules : List String)

/-- A Python `dict` (string keys) as an association list with unique keys. -/
abbrev Dict := List (String × FieldValue)

/-- The raw `features` field as it sits in `__dict__`: a single callable or a
Python list of callables. -/
def FeatureSpec.toValue : FeatureSpec → FieldValue
  | .single f => .featureV f
  | .perLevel fs => .listV (fs.map FieldValue.featureV)

/-- The `__dict__` of each variant, exactly the fields its `__init__` assigns
(in assignment order).  `PartsAAM` has no `transform` key; the linear variants
add `n_landmarks`; `patch_shape`/`parts_shape` appear only where assigned. -/
def AAM.h5_fields (A : AAM) : Dict :=
  match A.variant with
  | .globalAAM =>
      [("shape_models", .shapeModelsV A.shape_models),
       ("appearance_models", .appearanceModelsV A.appearance_models),
       ("transform", .transformV (A.transform.getD .thinPlateSplines)),
       ("features", A.features.toValue),
       ("reference_shape", .shapeV A.reference_shape),
       ("sigma", .ratV A.sigma),
       ("scales", .ratListV A.scales),
       ("scale_shapes", .boolV A.scale_shapes),
       ("scale_features", .boolV A.scale_features)]
  | .patchAAM =>
      [("shape_models", .shapeModelsV A.shape_models),
       ("appearance_models", .appearanceModelsV A.appearance_models),
       ("transform", .transformV (A.transform.getD .thinPlateSplines)),
       ("patch_shape", .natPairV (A.patch_shape.getD (0, 0))),
       ("features", A.features.toValue),
       ("reference_shape", .shapeV A.reference_shape),
       ("sigma", .ratV A.sigma),
       ("scales", .ratListV A.scales),
       ("scale_shapes", .boolV A.scale_shapes),
       ("scale_features", .boolV A.scale_features)]
  | .linearGlobalAAM =>
      [("shape_models", .shapeModelsV A.shape_models),
       ("appearance_models", .appearanceModelsV A.appearance_models),
       ("transform", .transformV (A.transform.getD .thinPlateSplines)),
       ("features", A.features.toValue),
       ("reference_shape", .shapeV A.reference_shape),
       ("sigma", .ratV A.sigma),
       ("scales", .ratListV A.scales),
       ("scale_shapes", .boolV A.scale_shapes),
       ("scale_features", .boolV A.scale_features),
       ("n_landmarks", .natV (A.n_landmarks.getD 0))]
  | .linearPatchAAM =>
      [("shape_models", .shapeModelsV A.shape_models),
       ("appearance_models", .appearanceModelsV A.appearance_models),
       ("transform", .transformV (A.transform.getD .thinPlateSplines)),
       ("patch_shape", .natPairV (A.patch_shape.getD (0, 0))),
       ("features", A.features.toValue),
       ("reference_shape", .shapeV A.reference_shape),
       ("sigma", .ratV A.sigma),
       ("scales", .ratListV A.scales),
       ("scale_shapes", .boolV A.scale_shapes),
       ("scale_features", .boolV A.scale_features),
       ("n_landmarks", .natV (A.n_landmarks.getD 0))]
  | .partsAAM =>
      [("shape_models", .shapeModelsV A.shape_models),
       ("appearance_models", .appearanceModelsV A.appearance_models),
       ("parts_shape", .natPairV (A.parts_shape.getD (0, 0))),
       ("features", A.features.toValue),
       ("sigma", .ratV A.sigma),
       ("reference_shape", .shapeV A.reference_shape),
       ("scales", .ratListV A.scales),
       ("scale_shapes", .boolV A.scale_shapes),
       ("scale_features", .boolV A.scale_features)]

/-- Python `d.pop(k)`: the removed value and the remaining dict, or a
`KeyError` (`none`). -/
def dictPop (d : Dict) (k : String) : Option (FieldValue × Dict) :=
  match d.lookup k with
  | some v => some (v, d.filter (fun p => p.1 != k))
  | none => none

/-- Python `d[k] = v` on a dict from which `k` was just popped: the key is
re-added (insertion at the end). -/
def dictSet (d : Dict) (k : String) (v : FieldValue) : Dict :=
  d ++ [(k, v)]

/-- The `features` rewrite shared by both serializers: with `scale_features`
the single callable is wrapped as one `SerializableCallable`; otherwise the
code iterates over the list and wraps each element (iterating a non-list is a
`TypeError`, `none`). -/
def wrapFeatures (scale_features : Bool) (v : FieldValue) :
    Option FieldValue :=
  if scale_features then some (.serializableV v ["aam.feature"])
  else
    match v with
    | .listV vs =>
        some (.listV (vs.map (fun f => FieldValue.serializableV f
          ["aam.feature"])))
    | _ => none

/-- `h5_dict_to_serializable_dict`: the base implementation copies
`__dict__`, pops `transform` and re-adds it wrapped with the
`menpo.transform` module context, then pops `features` and re-adds the
flag-dependent wrapped form.  `PartsAAM` overrides it to perform only the
`features` rewrite (it has no `transform` field). -/
def AAM.h5_dict_to_serializable_dict (A : AAM) : Option Dict :=
  match A.variant with
  | .partsAAM => do
      let (f, d) ← dictPop A.h5_fields "features"
      let fw ← wrapFeatures A.scale_features f
      some (dictSet d "features" fw)
  | _ => do
      let (t, d) ← dictPop A.h5_fields "transform"
      let d := dictSet d "transform" (.serializableV t ["menpo.transform"])
      let (f, d) ← dictPop d "features"
      let fw ← wrapFeatures A.scale_features f
      some (dictSet d "features" fw)

/-- Modelled from the spec: at load time each `SerializableCallable` wrapper
is resolved back to the callable it recorded (a registry lookup in the
wrapper's module context). -/
def unwrapSC : FieldValue → FieldValue
  | .serializableV v _ => v
  | v => v

/-- Modelled from the spec: resolving a restored field, including a list of
wrapped callables elementwise. -/
def unwrapField : FieldValue → FieldValue
  | .listV vs => .listV (vs.map unwrapSC)
  | v => unwrapSC v

/-- Parse one restored feature callable. -/
def parseFeature1 : FieldValue → Option Nat
  | .featureV f => some f
  | _ => none

/-- Parse a restored list of feature callables. -/
def parseFeatureList : List FieldValue → Option (List Nat)
  | [] => some []
  | v :: vs =>
    match parseFeature1 v, parseFeatureList vs with
    | some f, some fs => some (f :: fs)
    | _, _ => none

/-- Parse a restored `features` value back into its callable layout. -/
def parseFeatures : FieldValue → Option FeatureSpec
  | .featureV f => some (.single f)
  | .listV vs => (parseFeatureList vs).map FeatureSpec.perLevel
  | _ => none

/-- Modelled from the spec: the external persistence mechanism (`hdf5able`)
records the class of the object and its serializable dict, and restoring
reassembles the object from the dict with every `SerializableCallable`
resolved.  Fields a variant does not store are restored as absent. -/
def restoreAAM (variant : Variant) (d : Dict) : Option AAM := do
  let sms ← match d.lookup "shape_models" with
    | some (.shapeModelsV l) => some l
    | _ => none
  let ams ← match d.lookup "appearance_models" with
    | some (.appearanceModelsV l) => some l
    | _ => none
  let rs ← match d.lookup "reference_shape" with
    | some (.shapeV s) => some s
    | _ => none
  let tk : Option TransformKind ←
    match d.lookup "transform" with
    | some v =>
        (match unwrapSC v with
         | .transformV k => some (some k)
         | _ => none)
    | none => some none
  let ps : Option (Nat × Nat) ←
    match d.lookup "patch_shape" with
    | some (.natPairV p) => some (some p)
    | some _ => none
    | none => some none
  let prs : Option (Nat × Nat) ←
    match d.lookup "parts_shape" with
    | some (.natPairV p) => some (some p)
    | some _ => none
    | none => some none
  let nl : Option Nat ←
    match d.lookup "n_landmarks" with
    | some (.natV n) => some (some n)
    | some _ => none
    | none => some none
  let feats ← match d.lookup "features" with
    | some v => parseFeatures (unwrapField v)
    | none => none
  let sigma ← match d.lookup "sigma" with
    | some (.ratV q) => some q
    | _ => none
  let scales ← match d.lookup "scales" with
    | some (.ratListV l) => some l
    | _ => none
  let ssh ← match d.lookup "scale_shapes" with
    | some (.boolV b) => some b
    | _ => none
  let sfe ← match d.lookup "scale_features" with
    | some (.boolV b) => some b
    | _ => none
  some { variant := variant, shape_models := sms, appearance_models := ams,
         reference_shape := rs, transform := tk, patch_shape := ps,
         parts_shape := prs, n_landmarks := nl, features := feats,
         sigma := sigma, scales := scales, scale_shapes := ssh,
         scale_features := sfe }

/-- Well-formedness of an AAM object: the optional fields are present exactly
as the variant's constructor assigns them, and the `features` layout matches
the `scale_features` flag as the serializer requires. -/
def AAM.wf (A : AAM) : Prop :=
  (match A.variant with
   | .globalAAM =>
       A.transform.isSome ∧ A.patch_shape = none ∧ A.parts_shape = none ∧
         A.n_landmarks = none
   | .patchAAM =>
       A.transform = some .thinPlateSplines ∧ A.patch_shape.isSome ∧
         A.parts_shape = none ∧ A.n_landmarks = none
   | .linearGlobalAAM =>
       A.transform.isSome ∧ A.patch_shape = none ∧ A.parts_shape = none ∧
         A.n_landmarks.isSome
   | .linearPatchAAM =>
       A.transform = some .thinPlateSplines ∧ A.patch_shape.isSome ∧
         A.parts_shape = none ∧ A.n_landmarks.isSome
   | .partsAAM =>
       A.transform = none ∧ A.patch_shape = none ∧ A.parts_shape.isSome ∧
         A.n_landmarks = none) ∧
  (A.scale_features = false → ∃ fs, A.features = .perLevel fs)

/-! Concrete fixtures used by closed witnesses and counterexamples.  The
environment's `sqrt` is the identity: every instantiated property below is
independent of the numeric value of the square root. -/

/-- A concrete environment for closed instantiations. -/
def env0 : Env :=
  { sqrt := fun q => q
    warp := fun i m _ => { pixels := i.pixels + m, landmarks := i.landmarks }
    refMask := fun _ t => match t with | some _ => 1 | none => 2
    refLandmarks := fun s _ => [("source", s)]
    patchMask := fun _ _ => 3
    patchLandmarks := fun s _ => [("source", s)]
    randn := fun n g => (List.replicate n 1, g + 1)
    randn_length := fun n _ => List.length_replicate n 1 }

/-- A shape model retaining two eigenvalues. -/
def sm0 : ShapeModel :=
  { eigenvalues := [4, 1], n_active_components := 2,
    inst := fun v => Shape.pointCloud (v.map (fun q => (q, q))) }

/-- A shape model retaining a single eigenvalue. -/
def sm1 : ShapeModel :=
  { eigenvalues := [4], n_active_components := 1,
    inst := fun v => Shape.pointCloud (v.map (fun q => (q, q))) }

/-- An appearance model whose mean template carries mesh-typed `'source'`
landmarks. -/
def am0 : AppearanceModel :=
  { eigenvalues := [9, 4], n_active_components := 2,
    inst := fun v => { pixels := v.length, landmarks := [] },
    mean := { pixels := 5,
              landmarks := [("source",
                Shape.triMesh [(0, 0), (1, 0), (0, 1)] [(0, 1, 2)])] } }

/-- A one-level global AAM over `sm0`/`am0`. -/
def gAAM : AAM :=
  { variant := .globalAAM, shape_models := [sm0], appearance_models := [am0],
    reference_shape := Shape.pointCloud [], transform := some (.other 7),
    patch_shape := none, parts_shape := none, n_landmarks := none,
    features := .perLevel [10], sigma := 0, scales := [1],
    scale_shapes := true, scale_features := false }

/-- The global AAM with a single retained shape eigenvalue. -/
def g1AAM : AAM := { gAAM with shape_models := [sm1] }

/-- A one-level patch AAM. -/
def pAAM : AAM :=
  { variant := .patchAAM, shape_models := [sm0], appearance_models := [am0],
    reference_shape := Shape.pointCloud [],
    transform := some .thinPlateSplines, patch_shape := some (8, 8),
    parts_shape := none, n_landmarks := none,
    features := .perLevel [10], sigma := 0, scales := [1],
    scale_shapes := true, scale_features := false }

/-- A one-level linear-global AAM (no `_instance` implementation). -/
def lgAAM : AAM :=
  { variant := .linearGlobalAAM, shape_models := [sm0],
    appearance_models := [am0], reference_shape := Shape.pointCloud [],
    transform := some (.other 7), patch_shape := none, parts_shape := none,
    n_landmarks := some 5, features := .perLevel [10], sigma := 0,
    scales := [1], scale_shapes := true, scale_features := false }

/-- A one-level parts AAM (no `transform` field). -/
def prAAM : AAM :=
  { variant := .partsAAM, shape_models := [sm0], appearance_models := [am0],
    reference_shape := Shape.pointCloud [], transform := none,
    patch_shape := none, parts_shape := some (4, 4), n_landmarks := none,
    features := .single 10, sigma := 0, scales := [1, 2],
    scale_shapes := true, scale_features := true }

/-- The reference frame that the variant's `_build_reference_frame` produces
inside `_instance`: the global builder driven by the template landmarks, or
the patch grid. -/
def AAM.frameFor (env : Env) (A : AAM) (shape_instance landmarks : Shape) :
    Frame :=
  match A.variant with
  | .patchAAM => patchBuildReferenceFrame env A shape_instance
  | _ => globalBuildReferenceFrame env shape_instance landmarks

/-! Helper lemmas about the scaling step. -/

/-- The sliced square-rooted eigenvalue vector has the requested length when
enough eigenvalues are retained. -/
theorem sqrtSlice_length (env : Env) (eigs : List ℚ) (n : Nat)
    (h : n ≤ eigs.length) : (sqrtSlice env eigs n).length = n := by
  simp [sqrtSlice]
  omega

/-- Broadcasting multiply of equal-length vectors is the elementwise
product. -/
theorem npBroadcastMul_eq_zip (xs ys : List ℚ) (h : xs.length = ys.length) :
    npBroadcastMul xs ys =
      some (List.zipWith (fun a b => a * b) xs ys) := by
  simp [npBroadcastMul, h]

/-- Elementwise product read off by index. -/
theorem zipWith_mul_getD (xs ys : List ℚ) (i : Nat) (hx : i < xs.length)
    (hy : i < ys.length) :
    (List.zipWith (fun a b => a * b) xs ys).getD i 0 =
      xs.getD i 0 * ys.getD i 0 := by
  induction xs generalizing ys i with
  | nil => simp at hx
  | cons x xs ih =>
    cases ys with
    | nil => simp at hy
    | cons y ys =>
      cases i with
      | zero => simp [List.getD]
      | succ n =>
          simpa [List.getD] using
            ih ys n (by simpa using hx) (by simpa using hy)

/-- The sliced square-rooted eigenvalue vector read off by index. -/
theorem sqrtSlice_getD (env : Env) (eigs : List ℚ) (n i : Nat) (hi : i < n)
    (hn : i < eigs.length) :
    (sqrtSlice env eigs n).getD i 0 = env.sqrt (eigs.getD i 0) := by
  induction eigs generalizing n i with
  | nil => simp at hn
  | cons e es ih =>
    cases n with
    | zero => omega
    | succ m =>
      cases i with
      | zero => simp [sqrtSlice, List.getD]
      | succ j =>
          simpa [sqrtSlice, List.getD] using
            ih m j (by omega) (by simpa using hn)

/-- When the weight vector is no longer than the eigenvalue list, the scaling
step succeeds (for lists and arrays alike) and is the elementwise product
with the sliced square-rooted eigenvalues. -/
theorem scaleWeightsStep_of_le (env : Env) (w : Weights) (eigs : List ℚ)
    (h : w.vals.length ≤ eigs.length) :
    scaleWeightsStep env w eigs =
      some (List.zipWith (fun a b => a * b) w.vals
        (sqrtSlice env eigs w.vals.length)) := by
  have hlen : (sqrtSlice env eigs w.vals.length).length = w.vals.length :=
    sqrtSlice_length env eigs _ h
  cases w with
  | pylist xs =>
      simp [scaleWeightsStep, npBroadcastMul_eq_zip _ _ hlen.symm]
  | ndarray xs =>
      have hx : (sqrtSlice env eigs xs.length).length = xs.length := by
        simpa [Weights.vals] using hlen
      simp [scaleWeightsStep, Weights.vals, npBroadcastMul_eq_zip _ _ hx.symm,
        List.length_zipWith, hx]

/-- Scaling the default `[0]` weight vector always succeeds. -/
theorem scaleWeightsStep_default (env : Env) (eigs : List ℚ) :
    ∃ v, scaleWeightsStep env (.pylist [0]) eigs = some v := by
  cases eigs with
  | nil => exact ⟨[], rfl⟩
  | cons e es => exact ⟨[0 * env.sqrt e], rfl⟩

/-- C1: for every variant and every level, calling the instance synthesis
with both weight vectors omitted returns the same image as calling it with
the explicit single-element vectors `[0]`, `[0]`: an omitted weight vector is
treated as the one-element list `[0]`, not as a full-length zero vector. -/
theorem C1_omitted_weights_equal_single_zero (env : Env) (A : AAM)
    (level : ℤ) :
    A.instanceIm env none none level =
      A.instanceIm env (some (.pylist [0])) (some (.pylist [0])) level := by
  simp only [AAM.instanceIm, AAM.instanceFull]
  cases pyGet A.shape_models level with
  | none => rfl
  | some sm =>
    cases pyGet A.appearance_models level with
    | none => rfl
    | some am =>
      simp only [Option.getD]
      cases scaleWeightsStep env (.pylist [0]) sm.eigenvalues with
      | none => rfl
      | some sv =>
        cases scaleWeightsStep env (.pylist [0]) am.eigenvalues with
        | none => rfl
        | some av => rfl

/-- C4 counterexample: in the dense/global builder a non-mesh shape instance
passed together with a mesh-typed template landmark value yields a frame
built over that mesh's triangle list — not, as claimed, a frame with no
triangulation. -/
theorem C4_counterexample :
    (globalBuildReferenceFrame env0 (Shape.pointCloud [(0, 0)])
        (Shape.triMesh [(0, 0), (1, 0), (0, 1)] [(0, 1, 2)])).trilistUsed =
      some [(0, 1, 2)] := rfl

/-- C4 amended: the triangulation of the built frame follows the second
argument — the mean-appearance template's landmarks — not the shape
instance: the frame is `build_reference_frame` of the shape instance with the
template landmarks' triangle list when those landmarks are exactly a
`TriMesh` and with `None` otherwise, and the call never raises (it is a total
function). -/
theorem C4_amended_trilist_follows_template_landmarks (env : Env)
    (reference_shape landmarks : Shape) :
    globalBuildReferenceFrame env reference_shape landmarks =
      build_reference_frame env reference_shape landmarks.trilistOf := by
  cases landmarks <;> rfl

/-- C7 counterexample: a caller-supplied numpy weight vector is scaled in
place: after calling `instance` on `gAAM` with the ndarray `[1]` (first
eigenvalue `4`, square root abstracted as the identity) the caller's array
holds `[4]`, no longer its original values `[1]`. -/
theorem C7_counterexample :
    (gAAM.instanceFull env0 (some (.ndarray [1])) none (-1)).2.1 =
        some (.ndarray [4]) ∧
      (some (Weights.ndarray [4]) : Option Weights) ≠
        some (.ndarray [1]) := by
  constructor
  · with_unfolding_all rfl
  · simp

/-- C7 amended: the synthesis reads only immutable model state, and a weight
vector supplied as a Python list is never mutated — after any call both list
arguments still hold exactly their original values (only ndarray arguments
are scaled in place). -/
theorem C7_amended_list_arguments_unchanged (env : Env) (A : AAM)
    (xs ys : List ℚ) (level : ℤ) :
    (A.instanceFull env (some (.pylist xs)) (some (.pylist ys)) level).2 =
      (some (.pylist xs), some (.pylist ys)) := by
  simp only [AAM.instanceFull]
  split
  · rfl
  · split
    · rfl
    · split
      · rfl
      · split
        · rfl
        · rfl

/-- C2: when the supplied shape and appearance weight vectors are no longer
than the corresponding model's active-component count (which menpo keeps at
most the number of retained eigenvalues), the scaling step succeeds
deterministically, its `i`-th entry is `input_i * sqrt(eigenvalue_i)`, and
`instance` passes exactly these scaled vectors to the two models'
instantiation operations. -/
theorem C2_eigenvalue_scaling (env : Env) (A : AAM) (level : ℤ)
    (sm : ShapeModel) (am : AppearanceModel) (ws wa : Weights)
    (hsm : pyGet A.shape_models level = some sm)
    (ham : pyGet A.appearance_models level = some am)
    (hws : ws.vals.length ≤ sm.n_active_components)
    (hsa : sm.n_active_components ≤ sm.eigenvalues.length)
    (hwa : wa.vals.length ≤ am.n_active_components)
    (haa : am.n_active_components ≤ am.eigenvalues.length) :
    ∃ vs va,
      scaleWeightsStep env ws sm.eigenvalues = some vs ∧
      scaleWeightsStep env wa am.eigenvalues = some va ∧
      vs.length = ws.vals.length ∧ va.length = wa.vals.length ∧
      (∀ i, i < ws.vals.length →
        vs.getD i 0 = ws.vals.getD i 0 * env.sqrt (sm.eigenvalues.getD i 0)) ∧
      (∀ i, i < wa.vals.length →
        va.getD i 0 = wa.vals.getD i 0 * env.sqrt (am.eigenvalues.getD i 0)) ∧
      (A.instanceFull env (some ws) (some wa) level).1 =
        A.underscoreInstance env level (sm.inst vs) (am.inst va) := by
  have hs' : ws.vals.length ≤ sm.eigenvalues.length := le_trans hws hsa
  have ha' : wa.vals.length ≤ am.eigenvalues.length := le_trans hwa haa
  have hzs := scaleWeightsStep_of_le env ws sm.eigenvalues hs'
  have hza := scaleWeightsStep_of_le env wa am.eigenvalues ha'
  refine ⟨_, _, hzs, hza, ?_, ?_, ?_, ?_, ?_⟩
  · simp [List.length_zipWith, sqrtSlice_length env _ _ hs']
  · simp [List.length_zipWith, sqrtSlice_length env _ _ ha']
  · intro i hi
    rw [zipWith_mul_getD _ _ i hi
        (by rw [sqrtSlice_length env _ _ hs']; exact hi),
      sqrtSlice_getD env _ _ i hi (lt_of_lt_of_le hi hs')]
  · intro i hi
    rw [zipWith_mul_getD _ _ i hi
        (by rw [sqrtSlice_length env _ _ ha']; exact hi),
      sqrtSlice_getD env _ _ i hi (lt_of_lt_of_le hi ha')]
  · simp [AAM.instanceFull, hsm, ham, hzs, hza]

/-- C2 witness: the scaling property instantiated on the concrete global
model `gAAM` at level `-1` with shape weights `[1]` and appearance weights
`[2]`. -/
theorem C2_eigenvalue_scaling_witness :
    pyGet gAAM.shape_models (-1) = some sm0 ∧
    pyGet gAAM.appearance_models (-1) = some am0 ∧
    (Weights.pylist [1]).vals.length ≤ sm0.n_active_components ∧
    sm0.n_active_components ≤ sm0.eigenvalues.length ∧
    (Weights.pylist [2]).vals.length ≤ am0.n_active_components ∧
    am0.n_active_components ≤ am0.eigenvalues.length ∧
    (∃ vs va,
      scaleWeightsStep env0 (.pylist [1]) sm0.eigenvalues = some vs ∧
      scaleWeightsStep env0 (.pylist [2]) am0.eigenvalues = some va ∧
      vs.length = (Weights.pylist [1]).vals.length ∧
      va.length = (Weights.pylist [2]).vals.length ∧
      (∀ i, i < (Weights.pylist [1]).vals.length →
        vs.getD i 0 = (Weights.pylist [1]).vals.getD i 0 *
          env0.sqrt (sm0.eigenvalues.getD i 0)) ∧
      (∀ i, i < (Weights.pylist [2]).vals.length →
        va.getD i 0 = (Weights.pylist [2]).vals.getD i 0 *
          env0.sqrt (am0.eigenvalues.getD i 0)) ∧
      (gAAM.instanceFull env0 (some (.pylist [1])) (some (.pylist [2]))
          (-1)).1 =
        gAAM.underscoreInstance env0 (-1) (sm0.inst vs) (am0.inst va)) :=
  ⟨by with_unfolding_all rfl, by with_unfolding_all rfl,
   by simp [Weights.vals, sm0], by simp [sm0],
   by simp [Weights.vals, am0], by simp [am0],
   C2_eigenvalue_scaling env0 gAAM (-1) sm0 am0 (.pylist [1]) (.pylist [2])
     (by with_unfolding_all rfl) (by with_unfolding_all rfl)
     (by simp [Weights.vals, sm0]) (by simp [sm0])
     (by simp [Weights.vals, am0]) (by simp [am0])⟩

/-- C3 counterexample: on `g1AAM`, whose shape model retains a single
eigenvalue (`4`), supplying the two shape weights `[1, 2]` does not fail with
any error: the scaling silently broadcasts the one square-rooted eigenvalue
over both weights (index reuse, not truncation) and the call returns an
image whose landmarks exhibit the broadcast-scaled shape weights `[4, 8]`
(the square root abstracted as the identity). -/
theorem C3_counterexample :
    (g1AAM.instanceFull env0 (some (.pylist [1, 2])) none (-1)).1 =
      Except.ok
        (Image.mk 2 [("source", Shape.pointCloud [(4, 4), (8, 8)])]) := by
  with_unfolding_all rfl

/-- Broadcasting multiply fails when the lengths differ and neither operand
has length one. -/
theorem npBroadcastMul_none (xs ys : List ℚ) (hne : xs.length ≠ ys.length)
    (hx : xs.length ≠ 1) (hy : ys.length ≠ 1) :
    npBroadcastMul xs ys = none := by
  unfold npBroadcastMul
  rw [if_neg hne]
  cases xs with
  | nil =>
    cases ys with
    | nil => exact absurd rfl hne
    | cons y ys =>
      cases ys with
      | nil => exact absurd rfl hy
      | cons y2 ys => rfl
  | cons x xs =>
    cases xs with
    | nil => exact absurd rfl hx
    | cons x2 xs =>
      cases ys with
      | nil => rfl
      | cons y ys =>
        cases ys with
        | nil => exact absurd rfl hy
        | cons y2 ys => rfl

/-- The scaling step fails (a `ValueError`) when the weight vector is longer
than the eigenvalue list and neither the eigenvalue list nor the weight
vector has length one. -/
theorem scaleWeightsStep_overlong_none (env : Env) (w : Weights)
    (eigs : List ℚ) (hlen : eigs.length < w.vals.length)
    (hm : eigs.length ≠ 1) (hn : w.vals.length ≠ 1) :
    scaleWeightsStep env w eigs = none := by
  have hys : (sqrtSlice env eigs w.vals.length).length = eigs.length := by
    simp [sqrtSlice]
    omega
  have h0 : npBroadcastMul w.vals (sqrtSlice env eigs w.vals.length) = none :=
    npBroadcastMul_none _ _ (by omega) hn (by omega)
  cases w with
  | pylist xs => simp [scaleWeightsStep, Weights.vals] at h0 ⊢; simp [h0]
  | ndarray xs => simp [scaleWeightsStep, Weights.vals] at h0 ⊢; simp [h0]

/-- C3 amended: a caller-supplied shape or appearance weight vector longer
than the corresponding model's retained eigenvalue list makes `instance`
fail fast with the elementwise-scaling broadcast `ValueError` (the spec
taxonomy's `InvalidArgument`), before the composition step is reached —
provided neither that eigenvalue list nor the weight vector has length
exactly one; when the model retains exactly one eigenvalue the call instead
silently broadcasts that eigenvalue over every weight (see the
counterexample).  An overlong appearance vector fails regardless of what is
supplied in the shape slot. -/
theorem C3_amended_overlong_weights_fail (env : Env) (A : AAM) (level : ℤ)
    (sm : ShapeModel) (am : AppearanceModel)
    (hsm : pyGet A.shape_models level = some sm)
    (ham : pyGet A.appearance_models level = some am) :
    (∀ w aw, sm.eigenvalues.length < w.vals.length →
      sm.eigenvalues.length ≠ 1 → w.vals.length ≠ 1 →
      (A.instanceFull env (some w) aw level).1 = .error .valueError) ∧
    (∀ sw w, am.eigenvalues.length < w.vals.length →
      am.eigenvalues.length ≠ 1 → w.vals.length ≠ 1 →
      (A.instanceFull env sw (some w) level).1 = .error .valueError) := by
  constructor
  · intro w aw hlen hm hn
    have h0 := scaleWeightsStep_overlong_none env w sm.eigenvalues hlen hm hn
    simp [AAM.instanceFull, hsm, ham, h0]
  · intro sw w hlen hm hn
    have h0 := scaleWeightsStep_overlong_none env w am.eigenvalues hlen hm hn
    cases hss : scaleWeightsStep env (sw.getD (.pylist [0]))
        sm.eigenvalues with
    | none => simp [AAM.instanceFull, hsm, ham, hss]
    | some sv => simp [AAM.instanceFull, hsm, ham, hss, h0]

/-- C3 amended witness: on `gAAM` (two retained eigenvalues in each model)
three weights in either slot fail with the broadcast `ValueError`; the two
closing conjuncts evaluate both concrete calls. -/
theorem C3_amended_overlong_weights_fail_witness :
    pyGet gAAM.shape_models (-1) = some sm0 ∧
    pyGet gAAM.appearance_models (-1) = some am0 ∧
    ((∀ w aw, sm0.eigenvalues.length < w.vals.length →
        sm0.eigenvalues.length ≠ 1 → w.vals.length ≠ 1 →
        (gAAM.instanceFull env0 (some w) aw (-1)).1 =
          .error .valueError) ∧
      (∀ sw w, am0.eigenvalues.length < w.vals.length →
        am0.eigenvalues.length ≠ 1 → w.vals.length ≠ 1 →
        (gAAM.instanceFull env0 sw (some w) (-1)).1 =
          .error .valueError)) ∧
    (gAAM.instanceFull env0 (some (.pylist [1, 1, 1])) none (-1)).1 =
      .error .valueError ∧
    (gAAM.instanceFull env0 none (some (.pylist [1, 1, 1])) (-1)).1 =
      .error .valueError :=
  ⟨by with_unfolding_all rfl, by with_unfolding_all rfl,
   C3_amended_overlong_weights_fail env0 gAAM (-1) sm0 am0
     (by with_unfolding_all rfl) (by with_unfolding_all rfl),
   by with_unfolding_all rfl, by with_unfolding_all rfl⟩

/-- C5: for the dense/global and the patch variant, `_instance` constructs
the stored transform with the built reference frame's own `'source'`
landmarks as the first (destination-side) argument and the level template's
`'source'` landmarks as the second (source-side) argument, and the returned
image carries the reference frame's landmark metadata — overwriting whatever
landmarks the warped image carried, for every possible warp behaviour. -/
theorem C5_transform_args_and_landmark_overwrite (env : Env) (A : AAM)
    (level : ℤ) (am : AppearanceModel) (lm frameLms : Shape)
    (tk : TransformKind) (si : Shape) (app : Image)
    (hvar : A.variant = .globalAAM ∨ A.variant = .patchAAM)
    (ham : pyGet A.appearance_models level = some am)
    (hlm : am.mean.landmarks.lookup "source" = some lm)
    (htk : A.transform = some tk)
    (hfl : (A.frameFor env si lm).landmarks.lookup "source" =
      some frameLms) :
    A.underscoreInstance env level si app =
      .ok { env.warp app (A.frameFor env si lm).mask
              { kind := tk, arg1 := frameLms, arg2 := lm } with
            landmarks := (A.frameFor env si lm).landmarks } := by
  rcases hvar with h | h <;>
    simp only [AAM.frameFor, h] at hfl ⊢ <;>
    simp [AAM.underscoreInstance, h, composeInstance, ham, hlm, htk, hfl]

/-- C5 witness: the composition property instantiated on `gAAM` with a
point-cloud shape instance and an appearance image that already carries a
(discarded) landmark group. -/
theorem C5_transform_args_and_landmark_overwrite_witness :
    (gAAM.variant = .globalAAM ∨ gAAM.variant = .patchAAM) ∧
    pyGet gAAM.appearance_models (-1) = some am0 ∧
    am0.mean.landmarks.lookup "source" =
      some (Shape.triMesh [(0, 0), (1, 0), (0, 1)] [(0, 1, 2)]) ∧
    gAAM.transform = some (.other 7) ∧
    (gAAM.frameFor env0 (Shape.pointCloud [(1, 1)])
        (Shape.triMesh [(0, 0), (1, 0), (0, 1)]
          [(0, 1, 2)])).landmarks.lookup "source" =
      some (Shape.pointCloud [(1, 1)]) ∧
    gAAM.underscoreInstance env0 (-1) (Shape.pointCloud [(1, 1)])
        (Image.mk 9 [("old", Shape.pointCloud [])]) =
      .ok { env0.warp (Image.mk 9 [("old", Shape.pointCloud [])])
              (gAAM.frameFor env0 (Shape.pointCloud [(1, 1)])
                (Shape.triMesh [(0, 0), (1, 0), (0, 1)] [(0, 1, 2)])).mask
              { kind := .other 7
                arg1 := Shape.pointCloud [(1, 1)]
                arg2 := Shape.triMesh [(0, 0), (1, 0), (0, 1)]
                  [(0, 1, 2)] } with
            landmarks := (gAAM.frameFor env0 (Shape.pointCloud [(1, 1)])
              (Shape.triMesh [(0, 0), (1, 0), (0, 1)]
                [(0, 1, 2)])).landmarks } :=
  ⟨Or.inl rfl, by with_unfolding_all rfl, by with_unfolding_all rfl, rfl,
   by with_unfolding_all rfl,
   C5_transform_args_and_landmark_overwrite env0 gAAM (-1) am0
     (Shape.triMesh [(0, 0), (1, 0), (0, 1)] [(0, 1, 2)])
     (Shape.pointCloud [(1, 1)]) (.other 7) (Shape.pointCloud [(1, 1)])
     (Image.mk 9 [("old", Shape.pointCloud [])]) (Or.inl rfl)
     (by with_unfolding_all rfl) (by with_unfolding_all rfl) rfl
     (by with_unfolding_all rfl)⟩

/-- C6: the two linear variants define no `_instance` synthesis override, so
instance synthesis on them never returns an image: `instance` and
`random_instance` never succeed for any weights, level or random state, and
with a valid level and the default weights the failure is precisely the
`AttributeError` raised by the missing `_instance` attribute — the spec
taxonomy's `UnsupportedOperation`. -/
theorem C6_linear_variants_no_synthesis (env : Env) (A : AAM)
    (hvar : A.variant = .linearGlobalAAM ∨ A.variant = .linearPatchAAM) :
    (∀ sw aw level img, (A.instanceFull env sw aw level).1 ≠ .ok img) ∧
    (∀ g level img, (A.random_instance env g level).1 ≠ .ok img) ∧
    (∀ level sm am, pyGet A.shape_models level = some sm →
      pyGet A.appearance_models level = some am →
      (A.instanceFull env none none level).1 = .error .attributeError) := by
  have hui : ∀ level si app,
      A.underscoreInstance env level si app = .error .attributeError := by
    intro level si app
    rcases hvar with h | h <;> simp [AAM.underscoreInstance, h]
  refine ⟨?_, ?_, ?_⟩
  · intro sw aw level img
    simp only [AAM.instanceFull]
    split
    · simp
    · split
      · simp
      · split
        · simp
        · split
          · simp
          · simp [hui]
  · intro g level img
    simp only [AAM.random_instance]
    split
    · simp
    · split
      · simp
      · split
        · simp
        · split
          · simp
          · simp [hui]
  · intro level sm am hsm ham
    obtain ⟨vs, hvs⟩ := scaleWeightsStep_default env sm.eigenvalues
    obtain ⟨va, hva⟩ := scaleWeightsStep_default env am.eigenvalues
    simp [AAM.instanceFull, hsm, ham, hvs, hva, hui]

/-- C6 witness: the property instantiated on the concrete linear-global
model `lgAAM`. -/
theorem C6_linear_variants_no_synthesis_witness :
    (lgAAM.variant = .linearGlobalAAM ∨
      lgAAM.variant = .linearPatchAAM) ∧
    ((∀ sw aw level img,
        (lgAAM.instanceFull env0 sw aw level).1 ≠ .ok img) ∧
      (∀ g level img, (lgAAM.random_instance env0 g level).1 ≠ .ok img) ∧
      (∀ level sm am, pyGet lgAAM.shape_models level = some sm →
        pyGet lgAAM.appearance_models level = some am →
        (lgAAM.instanceFull env0 none none level).1 =
          .error .attributeError)) :=
  ⟨Or.inl rfl, C6_linear_variants_no_synthesis env0 lgAAM (Or.inl rfl)⟩

/-- C8: `random_instance` draws one standard-normal weight per active
component of each subspace model — the full active-component count, never a
truncated length — scales the `i`-th draw by the square root of the `i`-th
eigenvalue, instantiates both models with the scaled vectors, and composes
through exactly the `_instance` path `instance` uses: it returns precisely
what `instance` would return when handed the raw draws as weight vectors. -/
theorem C8_random_instance_full_length (env : Env) (A : AAM) (g : RNG)
    (level : ℤ) (sm : ShapeModel) (am : AppearanceModel)
    (hsm : pyGet A.shape_models level = some sm)
    (ham : pyGet A.appearance_models level = some am)
    (hs : sm.n_active_components ≤ sm.eigenvalues.length)
    (ha : am.n_active_components ≤ am.eigenvalues.length) :
    ∃ vs va,
      (env.randn sm.n_active_components g).1.length =
        sm.n_active_components ∧
      (env.randn am.n_active_components
        (env.randn sm.n_active_components g).2).1.length =
        am.n_active_components ∧
      vs.length = sm.n_active_components ∧
      va.length = am.n_active_components ∧
      (∀ i, i < sm.n_active_components →
        vs.getD i 0 = (env.randn sm.n_active_components g).1.getD i 0 *
          env.sqrt (sm.eigenvalues.getD i 0)) ∧
      (∀ i, i < am.n_active_components →
        va.getD i 0 =
          (env.randn am.n_active_components
            (env.randn sm.n_active_components g).2).1.getD i 0 *
          env.sqrt (am.eigenvalues.getD i 0)) ∧
      (A.random_instance env g level).1 =
        A.underscoreInstance env level (sm.inst vs) (am.inst va) ∧
      (A.random_instance env g level).1 =
        (A.instanceFull env
          (some (.pylist (env.randn sm.n_active_components g).1))
          (some (.pylist (env.randn am.n_active_components
            (env.randn sm.n_active_components g).2).1)) level).1 := by
  have dsl : (env.randn sm.n_active_components g).1.length =
      sm.n_active_components := env.randn_length _ _
  have dal : (env.randn am.n_active_components
      (env.randn sm.n_active_components g).2).1.length =
      am.n_active_components := env.randn_length _ _
  have hys : (sqrtSlice env sm.eigenvalues sm.n_active_components).length =
      sm.n_active_components := sqrtSlice_length env _ _ hs
  have hya : (sqrtSlice env am.eigenvalues am.n_active_components).length =
      am.n_active_components := sqrtSlice_length env _ _ ha
  have hbs := npBroadcastMul_eq_zip (env.randn sm.n_active_components g).1
    (sqrtSlice env sm.eigenvalues sm.n_active_components)
    (dsl.trans hys.symm)
  have hba := npBroadcastMul_eq_zip
    (env.randn am.n_active_components
      (env.randn sm.n_active_components g).2).1
    (sqrtSlice env am.eigenvalues am.n_active_components)
    (dal.trans hya.symm)
  have h1 := scaleWeightsStep_of_le env
    (.pylist (env.randn sm.n_active_components g).1) sm.eigenvalues
    (by simpa [Weights.vals, dsl] using hs)
  have h2 := scaleWeightsStep_of_le env
    (.pylist (env.randn am.n_active_components
      (env.randn sm.n_active_components g).2).1) am.eigenvalues
    (by simpa [Weights.vals, dal] using ha)
  rw [show (Weights.pylist (env.randn sm.n_active_components g).1).vals =
      (env.randn sm.n_active_components g).1 from rfl, dsl] at h1
  rw [show (Weights.pylist (env.randn am.n_active_components
        (env.randn sm.n_active_components g).2).1).vals =
      (env.randn am.n_active_components
        (env.randn sm.n_active_components g).2).1 from rfl, dal] at h2
  refine ⟨List.zipWith (fun a b => a * b) (env.randn sm.n_active_components g).1
      (sqrtSlice env sm.eigenvalues sm.n_active_components),
    List.zipWith (fun a b => a * b)
      (env.randn am.n_active_components
        (env.randn sm.n_active_components g).2).1
      (sqrtSlice env am.eigenvalues am.n_active_components),
    dsl, dal, ?_, ?_, ?_, ?_, ?_, ?_⟩
  · simp [List.length_zipWith, dsl, hys]
  · simp [List.length_zipWith, dal, hya]
  · intro i hi
    rw [zipWith_mul_getD _ _ i (by omega) (by omega),
      sqrtSlice_getD env _ _ i hi (lt_of_lt_of_le hi hs)]
  · intro i hi
    rw [zipWith_mul_getD _ _ i (by omega) (by omega),
      sqrtSlice_getD env _ _ i hi (lt_of_lt_of_le hi ha)]
  · simp [AAM.random_instance, hsm, ham, hbs, hba]
  · simp [AAM.random_instance, AAM.instanceFull, hsm, ham, hbs, hba, h1, h2]

/-- C8 witness: the random-instance property instantiated on `gAAM` with
random state `0`. -/
theorem C8_random_instance_full_length_witness :
    pyGet gAAM.shape_models (-1) = some sm0 ∧
    pyGet gAAM.appearance_models (-1) = some am0 ∧
    sm0.n_active_components ≤ sm0.eigenvalues.length ∧
    am0.n_active_components ≤ am0.eigenvalues.length ∧
    (∃ vs va,
      (env0.randn sm0.n_active_components 0).1.length =
        sm0.n_active_components ∧
      (env0.randn am0.n_active_components
        (env0.randn sm0.n_active_components 0).2).1.length =
        am0.n_active_components ∧
      vs.length = sm0.n_active_components ∧
      va.length = am0.n_active_components ∧
      (∀ i, i < sm0.n_active_components →
        vs.getD i 0 = (env0.randn sm0.n_active_components 0).1.getD i 0 *
          env0.sqrt (sm0.eigenvalues.getD i 0)) ∧
      (∀ i, i < am0.n_active_components →
        va.getD i 0 =
          (env0.randn am0.n_active_components
            (env0.randn sm0.n_active_components 0).2).1.getD i 0 *
          env0.sqrt (am0.eigenvalues.getD i 0)) ∧
      (gAAM.random_instance env0 0 (-1)).1 =
        gAAM.underscoreInstance env0 (-1) (sm0.inst vs) (am0.inst va) ∧
      (gAAM.random_instance env0 0 (-1)).1 =
        (gAAM.instanceFull env0
          (some (.pylist (env0.randn sm0.n_active_components 0).1))
          (some (.pylist (env0.randn am0.n_active_components
            (env0.randn sm0.n_active_components 0).2).1)) (-1)).1) :=
  ⟨by with_unfolding_all rfl, by with_unfolding_all rfl, by simp [sm0],
   by simp [am0],
   C8_random_instance_full_length env0 gAAM 0 (-1) sm0 am0
     (by with_unfolding_all rfl) (by with_unfolding_all rfl)
     (by simp [sm0]) (by simp [am0])⟩

/-! Helper lemmas about association-list dictionaries. -/

/-- Lookup distributes over append when the key is in the left part. -/
theorem dictLookup_append_of_some (l1 l2 : Dict) (k : String)
    (v : FieldValue) (h : l1.lookup k = some v) :
    (l1 ++ l2).lookup k = some v := by
  induction l1 with
  | nil => simp [List.lookup] at h
  | cons p l ih =>
    cases p with
    | mk k0 v0 =>
      simp only [List.lookup, List.cons_append] at h ⊢
      cases hk : (k == k0) with
      | true => rw [hk] at h; exact h
      | false => rw [hk] at h; exact ih h

/-- Lookup distributes over append when the key misses the left part. -/
theorem dictLookup_append_of_none (l1 l2 : Dict) (k : String)
    (h : l1.lookup k = none) :
    (l1 ++ l2).lookup k = l2.lookup k := by
  induction l1 with
  | nil => rfl
  | cons p l ih =>
    cases p with
    | mk k0 v0 =>
      simp only [List.lookup, List.cons_append] at h ⊢
      cases hk : (k == k0) with
      | true => rw [hk] at h; exact absurd h (by simp)
      | false => rw [hk] at h; exact ih h

/-- Filtering out one key leaves lookups of other keys unchanged. -/
theorem dictLookup_filter_ne (d : Dict) (k k' : String) (h : k' ≠ k) :
    (d.filter (fun p => p.1 != k)).lookup k' = d.lookup k' := by
  induction d with
  | nil => rfl
  | cons p l ih =>
    cases p with
    | mk k0 v0 =>
      by_cases h0 : k0 = k
      · subst h0
        have hne : (k' == k0) = false := by
          simp [h]
        simp only [List.filter, List.lookup, bne_self_eq_false, hne]
        exact ih
      · have hkeep : (k0 != k) = true := by
          simp [h0]
        simp only [List.filter, hkeep, List.lookup]
        cases hk : (k' == k0) with
        | true => rfl
        | false => exact ih

/-- Filtering out a key removes it from lookups. -/
theorem dictLookup_filter_self (d : Dict) (k : String) :
    (d.filter (fun p => p.1 != k)).lookup k = none := by
  induction d with
  | nil => rfl
  | cons p l ih =>
    cases p with
    | mk k0 v0 =>
      by_cases h0 : k0 = k
      · subst h0
        simp only [List.filter, bne_self_eq_false]
        exact ih
      · have hkeep : (k0 != k) = true := by
          simp [h0]
        have hne : (k == k0) = false :=
          beq_eq_false_iff_ne.mpr (Ne.symm h0)
        simp only [List.filter, hkeep, List.lookup, hne]
        exact ih

/-- Setting a fresh key makes it found. -/
theorem dictSet_lookup_self (d : Dict) (k : String) (v : FieldValue)
    (h : d.lookup k = none) : (dictSet d k v).lookup k = some v := by
  rw [dictSet, dictLookup_append_of_none _ _ _ h]
  simp [List.lookup]

/-- Setting a key leaves other keys unchanged. -/
theorem dictSet_lookup_ne (d : Dict) (k k' : String) (v : FieldValue)
    (h : k' ≠ k) : (dictSet d k v).lookup k' = d.lookup k' := by
  rw [dictSet]
  cases hd : d.lookup k' with
  | some w => exact dictLookup_append_of_some _ _ _ _ hd
  | none =>
    rw [dictLookup_append_of_none _ _ _ hd]
    simp [List.lookup, beq_eq_false_iff_ne.mpr h]

/-- The stored `transform` entry of every non-parts variant's `__dict__`. -/
theorem h5_fields_lookup_transform (A : AAM)
    (h : A.variant ≠ Variant.partsAAM) :
    A.h5_fields.lookup "transform" =
      some (.transformV (A.transform.getD .thinPlateSplines)) := by
  unfold AAM.h5_fields
  cases hv : A.variant
  · with_unfolding_all rfl
  · with_unfolding_all rfl
  · with_unfolding_all rfl
  · with_unfolding_all rfl
  · exact absurd hv h

/-- The parts variant's `__dict__` has no `transform` entry. -/
theorem h5_fields_parts_no_transform (A : AAM)
    (h : A.variant = Variant.partsAAM) :
    A.h5_fields.lookup "transform" = none := by
  unfold AAM.h5_fields
  rw [h]
  with_unfolding_all rfl

/-- The stored `features` entry of every variant's `__dict__`. -/
theorem h5_fields_lookup_features (A : AAM) :
    A.h5_fields.lookup "features" = some A.features.toValue := by
  unfold AAM.h5_fields
  cases hv : A.variant
  · with_unfolding_all rfl
  · with_unfolding_all rfl
  · with_unfolding_all rfl
  · with_unfolding_all rfl
  · with_unfolding_all rfl

/-- C9: the serialization adapter returns a mapping with exactly the
instance's field keys; every field other than `transform` and `features` is
unchanged; `features` becomes one wrapped callable when `scale_features` is
set and otherwise the level-ordered list of wrapped callables; `transform`
becomes a wrapped callable with the `menpo.transform` context on every
variant except the parts variant, which has no `transform` field and
performs only the features replacement. -/
theorem C9_serializable_dict (A : AAM)
    (hf : A.scale_features = false → ∃ fs, A.features = .perLevel fs) :
    ∃ d, A.h5_dict_to_serializable_dict = some d ∧
      (∀ k, k ≠ "transform" → k ≠ "features" →
        d.lookup k = A.h5_fields.lookup k) ∧
      (∀ k, (d.lookup k).isSome = (A.h5_fields.lookup k).isSome) ∧
      (A.scale_features = true →
        d.lookup "features" =
          some (.serializableV A.features.toValue ["aam.feature"])) ∧
      (∀ fs, A.scale_features = false → A.features = .perLevel fs →
        d.lookup "features" = some (.listV (fs.map (fun f =>
          FieldValue.serializableV (.featureV f) ["aam.feature"])))) ∧
      (A.variant = .partsAAM → d.lookup "transform" = none) ∧
      (A.variant ≠ .partsAAM →
        d.lookup "transform" = some (.serializableV
          (.transformV (A.transform.getD .thinPlateSplines))
          ["menpo.transform"])) := by
  have hTF : ("transform" : String) ≠ "features" := by decide
  have hFT : ("features" : String) ≠ "transform" := by decide
  obtain ⟨fw, hfw⟩ :
      ∃ fw, wrapFeatures A.scale_features A.features.toValue = some fw := by
    cases hsf : A.scale_features with
    | true => exact ⟨_, rfl⟩
    | false =>
      obtain ⟨fs, hfs⟩ := hf hsf
      exact ⟨_, by rw [hfs]; rfl⟩
  have hfeat := h5_fields_lookup_features A
  by_cases hp : A.variant = .partsAAM
  · -- parts override: only the features rewrite
    refine ⟨dictSet (A.h5_fields.filter (fun p => p.1 != "features"))
      "features" fw, ?_, ?_, ?_, ?_, ?_, ?_, ?_⟩
    · simp [AAM.h5_dict_to_serializable_dict, hp, dictPop, hfeat, hfw]
    · intro k hkT hkF
      rw [dictSet_lookup_ne _ _ _ _ hkF, dictLookup_filter_ne _ _ _ hkF]
    · intro k
      by_cases hkF : k = "features"
      · subst hkF
        simp [dictSet_lookup_self _ _ fw (dictLookup_filter_self _ _),
          hfeat]
      · rw [dictSet_lookup_ne _ _ _ _ hkF, dictLookup_filter_ne _ _ _ hkF]
    · intro hsf
      rw [hsf] at hfw
      rw [show wrapFeatures true A.features.toValue =
          some (.serializableV A.features.toValue ["aam.feature"])
          from rfl] at hfw
      rw [dictSet_lookup_self _ _ _ (dictLookup_filter_self _ _)]
      exact hfw.symm
    · intro fs hsf hfs
      rw [hsf, hfs] at hfw
      rw [show wrapFeatures false (FeatureSpec.perLevel fs).toValue =
          some (.listV ((fs.map FieldValue.featureV).map
            (fun f => FieldValue.serializableV f ["aam.feature"])))
          from rfl] at hfw
      rw [dictSet_lookup_self _ _ _ (dictLookup_filter_self _ _), ← hfw]
      simp [List.map_map, Function.comp]
    · intro _
      rw [dictSet_lookup_ne _ _ _ _ hTF, dictLookup_filter_ne _ _ _ hTF,
        h5_fields_parts_no_transform A hp]
    · intro h
      exact absurd hp h
  · -- base implementation: transform then features rewrite
    have htl := h5_fields_lookup_transform A hp
    have hd2F : (dictSet (A.h5_fields.filter (fun p => p.1 != "transform"))
        "transform" (.serializableV
          (.transformV (A.transform.getD .thinPlateSplines))
          ["menpo.transform"])).lookup "features" =
        some A.features.toValue := by
      rw [dictSet_lookup_ne _ _ _ _ hFT, dictLookup_filter_ne _ _ _ hFT,
        hfeat]
    have hd : A.h5_dict_to_serializable_dict =
        some (dictSet ((dictSet (A.h5_fields.filter
            (fun p => p.1 != "transform")) "transform"
            (.serializableV (.transformV (A.transform.getD
              .thinPlateSplines)) ["menpo.transform"])).filter
            (fun p => p.1 != "features")) "features" fw) := by
      cases hv : A.variant
      case partsAAM => exact absurd hv hp
      all_goals
        simp [AAM.h5_dict_to_serializable_dict, hv, dictPop, htl, hd2F,
          hfw]
    refine ⟨_, hd, ?_, ?_, ?_, ?_, ?_, ?_⟩
    · intro k hkT hkF
      rw [dictSet_lookup_ne _ _ _ _ hkF, dictLookup_filter_ne _ _ _ hkF,
        dictSet_lookup_ne _ _ _ _ hkT, dictLookup_filter_ne _ _ _ hkT]
    · intro k
      by_cases hkF : k = "features"
      · subst hkF
        simp [dictSet_lookup_self _ _ fw (dictLookup_filter_self _ _),
          hfeat]
      · by_cases hkT : k = "transform"
        · subst hkT
          rw [dictSet_lookup_ne _ _ _ _ hTF,
            dictLookup_filter_ne _ _ _ hTF]
          simp [dictSet_lookup_self _ _ _ (dictLookup_filter_self _ _),
            htl]
        · rw [dictSet_lookup_ne _ _ _ _ hkF,
            dictLookup_filter_ne _ _ _ hkF,
            dictSet_lookup_ne _ _ _ _ hkT,
            dictLookup_filter_ne _ _ _ hkT]
    · intro hsf
      rw [hsf] at hfw
      rw [show wrapFeatures true A.features.toValue =
          some (.serializableV A.features.toValue ["aam.feature"])
          from rfl] at hfw
      rw [dictSet_lookup_self _ _ _ (dictLookup_filter_self _ _)]
      exact hfw.symm
    · intro fs hsf hfs
      rw [hsf, hfs] at hfw
      rw [show wrapFeatures false (FeatureSpec.perLevel fs).toValue =
          some (.listV ((fs.map FieldValue.featureV).map
            (fun f => FieldValue.serializableV f ["aam.feature"])))
          from rfl] at hfw
      rw [dictSet_lookup_self _ _ _ (dictLookup_filter_self _ _), ← hfw]
      simp [List.map_map, Function.comp]
    · intro h
      exact absurd h hp
    · intro _
      rw [dictSet_lookup_ne _ _ _ _ hTF, dictLookup_filter_ne _ _ _ hTF,
        dictSet_lookup_self _ _ _ (dictLookup_filter_self _ _)]

/-- C9 witness: the serialization property instantiated on the concrete
global model `gAAM` (per-level features, `scale_features` off). -/
theorem C9_serializable_dict_witness :
    (gAAM.scale_features = false → ∃ fs, gAAM.features = .perLevel fs) ∧
    (∃ d, gAAM.h5_dict_to_serializable_dict = some d ∧
      (∀ k, k ≠ "transform" → k ≠ "features" →
        d.lookup k = gAAM.h5_fields.lookup k) ∧
      (∀ k, (d.lookup k).isSome = (gAAM.h5_fields.lookup k).isSome) ∧
      (gAAM.scale_features = true →
        d.lookup "features" =
          some (.serializableV gAAM.features.toValue ["aam.feature"])) ∧
      (∀ fs, gAAM.scale_features = false → gAAM.features = .perLevel fs →
        d.lookup "features" = some (.listV (fs.map (fun f =>
          FieldValue.serializableV (.featureV f) ["aam.feature"])))) ∧
      (gAAM.variant = .partsAAM → d.lookup "transform" = none) ∧
      (gAAM.variant ≠ .partsAAM →
        d.lookup "transform" = some (.serializableV
          (.transformV (gAAM.transform.getD .thinPlateSplines))
          ["menpo.transform"]))) :=
  ⟨fun _ => ⟨[10], rfl⟩, C9_serializable_dict gAAM (fun _ => ⟨[10], rfl⟩)⟩

/-- Wrapping a list of feature callables and resolving the wrappers at load
time parses back to the original callables. -/
theorem parseFeatureList_roundtrip (fs : List Nat) (m : List String) :
    parseFeatureList (fs.map (unwrapSC ∘
      (fun f => FieldValue.serializableV f m) ∘ FieldValue.featureV)) =
      some fs := by
  induction fs with
  | nil => rfl
  | cons f fs ih =>
      simp [parseFeatureList, parseFeature1, unwrapSC, ih]

/-- Parsing back a plain list of feature-callable values. -/
theorem parseFeatureList_map_featureV (fs : List Nat) :
    parseFeatureList (fs.map FieldValue.featureV) = some fs := by
  induction fs with
  | nil => rfl
  | cons f fs ih => simp [parseFeatureList, parseFeature1, ih]

/-- C10: persisting a well-formed model through the serialization adapter
and restoring it through the spec-modelled load path reconstructs the model
exactly: the restored model preserves `n_levels` and all scale factors, its
`transform` and `features` fields equal the originals (callable-equivalent),
and its `instance()` output for identical weights and level equals the
pre-persistence output. -/
theorem C10_persist_restore_round_trip (A : AAM) (hwf : A.wf) :
    ∃ d A2, A.h5_dict_to_serializable_dict = some d ∧
      restoreAAM A.variant d = some A2 ∧ A2 = A ∧
      A2.n_levels = A.n_levels ∧ A2.scales = A.scales ∧
      A2.transform = A.transform ∧ A2.features = A.features ∧
      ∀ env sw aw level, A2.instanceFull env sw aw level =
        A.instanceFull env sw aw level := by
  obtain ⟨vr, sms, ams, rs, tr, ps, prs, nl, fe, sg, sc, ssh, sfe⟩ := A
  simp only [AAM.wf] at hwf
  cases vr
  case globalAAM =>
    obtain ⟨⟨htk, hps, hprs, hnl⟩, hff⟩ := hwf
    obtain ⟨tk, htk2⟩ := Option.isSome_iff_exists.mp htk
    subst hps hprs hnl htk2
    cases sfe
    case false =>
      obtain ⟨fs, hfe⟩ := hff rfl
      subst hfe
      refine ⟨_, _, rfl, ?_, rfl, rfl, rfl, rfl, rfl,
        fun env sw aw level => rfl⟩
      simp [restoreAAM, AAM.h5_dict_to_serializable_dict, AAM.h5_fields,
        dictPop, dictSet, wrapFeatures, FeatureSpec.toValue, unwrapField,
        unwrapSC, parseFeatures, parseFeatureList_roundtrip,
          parseFeatureList_map_featureV, List.lookup,
        List.filter]
    case true =>
      cases fe
      case single f =>
        refine ⟨_, _, rfl, ?_, rfl, rfl, rfl, rfl, rfl,
          fun env sw aw level => rfl⟩
        simp [restoreAAM, AAM.h5_dict_to_serializable_dict, AAM.h5_fields,
          dictPop, dictSet, wrapFeatures, FeatureSpec.toValue, unwrapField,
          unwrapSC, parseFeatures, parseFeature1, parseFeatureList_map_featureV,
          List.lookup, List.filter]
      case perLevel fs =>
        refine ⟨_, _, rfl, ?_, rfl, rfl, rfl, rfl, rfl,
          fun env sw aw level => rfl⟩
        simp [restoreAAM, AAM.h5_dict_to_serializable_dict, AAM.h5_fields,
          dictPop, dictSet, wrapFeatures, FeatureSpec.toValue, unwrapField,
          unwrapSC, parseFeatures, parseFeatureList_roundtrip,
          parseFeatureList_map_featureV, List.lookup,
          List.filter]
  case patchAAM =>
    obtain ⟨⟨htk, hps, hprs, hnl⟩, hff⟩ := hwf
    obtain ⟨p, hp2⟩ := Option.isSome_iff_exists.mp hps
    subst htk hprs hnl hp2
    cases sfe
    case false =>
      obtain ⟨fs, hfe⟩ := hff rfl
      subst hfe
      refine ⟨_, _, rfl, ?_, rfl, rfl, rfl, rfl, rfl,
        fun env sw aw level => rfl⟩
      simp [restoreAAM, AAM.h5_dict_to_serializable_dict, AAM.h5_fields,
        dictPop, dictSet, wrapFeatures, FeatureSpec.toValue, unwrapField,
        unwrapSC, parseFeatures, parseFeatureList_roundtrip,
          parseFeatureList_map_featureV, List.lookup,
        List.filter]
    case true =>
      cases fe
      case single f =>
        refine ⟨_, _, rfl, ?_, rfl, rfl, rfl, rfl, rfl,
          fun env sw aw level => rfl⟩
        simp [restoreAAM, AAM.h5_dict_to_serializable_dict, AAM.h5_fields,
          dictPop, dictSet, wrapFeatures, FeatureSpec.toValue, unwrapField,
          unwrapSC, parseFeatures, parseFeature1, parseFeatureList_map_featureV,
          List.lookup, List.filter]
      case perLevel fs =>
        refine ⟨_, _, rfl, ?_, rfl, rfl, rfl, rfl, rfl,
          fun env sw aw level => rfl⟩
        simp [restoreAAM, AAM.h5_dict_to_serializable_dict, AAM.h5_fields,
          dictPop, dictSet, wrapFeatures, FeatureSpec.toValue, unwrapField,
          unwrapSC, parseFeatures, parseFeatureList_roundtrip,
          parseFeatureList_map_featureV, List.lookup,
          List.filter]
  case linearGlobalAAM =>
    obtain ⟨⟨htk, hps, hprs, hnl⟩, hff⟩ := hwf
    obtain ⟨tk, htk2⟩ := Option.isSome_iff_exists.mp htk
    obtain ⟨n, hn2⟩ := Option.isSome_iff_exists.mp hnl
    subst hps hprs htk2 hn2
    cases sfe
    case false =>
      obtain ⟨fs, hfe⟩ := hff rfl
      subst hfe
      refine ⟨_, _, rfl, ?_, rfl, rfl, rfl, rfl, rfl,
        fun env sw aw level => rfl⟩
      simp [restoreAAM, AAM.h5_dict_to_serializable_dict, AAM.h5_fields,
        dictPop, dictSet, wrapFeatures, FeatureSpec.toValue, unwrapField,
        unwrapSC, parseFeatures, parseFeatureList_roundtrip,
          parseFeatureList_map_featureV, List.lookup,
        List.filter]
    case true =>
      cases fe
      case single f =>
        refine ⟨_, _, rfl, ?_, rfl, rfl, rfl, rfl, rfl,
          fun env sw aw level => rfl⟩
        simp [restoreAAM, AAM.h5_dict_to_serializable_dict, AAM.h5_fields,
          dictPop, dictSet, wrapFeatures, FeatureSpec.toValue, unwrapField,
          unwrapSC, parseFeatures, parseFeature1, parseFeatureList_map_featureV,
          List.lookup, List.filter]
      case perLevel fs =>
        refine ⟨_, _, rfl, ?_, rfl, rfl, rfl, rfl, rfl,
          fun env sw aw level => rfl⟩
        simp [restoreAAM, AAM.h5_dict_to_serializable_dict, AAM.h5_fields,
          dictPop, dictSet, wrapFeatures, FeatureSpec.toValue, unwrapField,
          unwrapSC, parseFeatures, parseFeatureList_roundtrip,
          parseFeatureList_map_featureV, List.lookup,
          List.filter]
  case linearPatchAAM =>
    obtain ⟨⟨htk, hps, hprs, hnl⟩, hff⟩ := hwf
    obtain ⟨p, hp2⟩ := Option.isSome_iff_exists.mp hps
    obtain ⟨n, hn2⟩ := Option.isSome_iff_exists.mp hnl
    subst htk hprs hp2 hn2
    cases sfe
    case false =>
      obtain ⟨fs, hfe⟩ := hff rfl
      subst hfe
      refine ⟨_, _, rfl, ?_, rfl, rfl, rfl, rfl, rfl,
        fun env sw aw level => rfl⟩
      simp [restoreAAM, AAM.h5_dict_to_serializable_dict, AAM.h5_fields,
        dictPop, dictSet, wrapFeatures, FeatureSpec.toValue, unwrapField,
        unwrapSC, parseFeatures, parseFeatureList_roundtrip,
          parseFeatureList_map_featureV, List.lookup,
        List.filter]
    case true =>
      cases fe
      case single f =>
        refine ⟨_, _, rfl, ?_, rfl, rfl, rfl, rfl, rfl,
          fun env sw aw level => rfl⟩
        simp [restoreAAM, AAM.h5_dict_to_serializable_dict, AAM.h5_fields,
          dictPop, dictSet, wrapFeatures, FeatureSpec.toValue, unwrapField,
          unwrapSC, parseFeatures, parseFeature1, parseFeatureList_map_featureV,
          List.lookup, List.filter]
      case perLevel fs =>
        refine ⟨_, _, rfl, ?_, rfl, rfl, rfl, rfl, rfl,
          fun env sw aw level => rfl⟩
        simp [restoreAAM, AAM.h5_dict_to_serializable_dict, AAM.h5_fields,
          dictPop, dictSet, wrapFeatures, FeatureSpec.toValue, unwrapField,
          unwrapSC, parseFeatures, parseFeatureList_roundtrip,
          parseFeatureList_map_featureV, List.lookup,
          List.filter]
  case partsAAM =>
    obtain ⟨⟨htk, hps, hprs, hnl⟩, hff⟩ := hwf
    obtain ⟨p, hp2⟩ := Option.isSome_iff_exists.mp hprs
    subst htk hps hp2 hnl
    cases sfe
    case false =>
      obtain ⟨fs, hfe⟩ := hff rfl
      subst hfe
      refine ⟨_, _, rfl, ?_, rfl, rfl, rfl, rfl, rfl,
        fun env sw aw level => rfl⟩
      simp [restoreAAM, AAM.h5_dict_to_serializable_dict, AAM.h5_fields,
        dictPop, dictSet, wrapFeatures, FeatureSpec.toValue, unwrapField,
        unwrapSC, parseFeatures, parseFeatureList_roundtrip,
          parseFeatureList_map_featureV, List.lookup,
        List.filter]
    case true =>
      cases fe
      case single f =>
        refine ⟨_, _, rfl, ?_, rfl, rfl, rfl, rfl, rfl,
          fun env sw aw level => rfl⟩
        simp [restoreAAM, AAM.h5_dict_to_serializable_dict, AAM.h5_fields,
          dictPop, dictSet, wrapFeatures, FeatureSpec.toValue, unwrapField,
          unwrapSC, parseFeatures, parseFeature1, parseFeatureList_map_featureV,
          List.lookup, List.filter]
      case perLevel fs =>
        refine ⟨_, _, rfl, ?_, rfl, rfl, rfl, rfl, rfl,
          fun env sw aw level => rfl⟩
        simp [restoreAAM, AAM.h5_dict_to_serializable_dict, AAM.h5_fields,
          dictPop, dictSet, wrapFeatures, FeatureSpec.toValue, unwrapField,
          unwrapSC, parseFeatures, parseFeatureList_roundtrip,
          parseFeatureList_map_featureV, List.lookup,
          List.filter]

/-- C10 witness: the round-trip property instantiated on the concrete
well-formed global model `gAAM`. -/
theorem C10_persist_restore_round_trip_witness :
    gAAM.wf ∧
    (∃ d A2, gAAM.h5_dict_to_serializable_dict = some d ∧
      restoreAAM gAAM.variant d = some A2 ∧ A2 = gAAM ∧
      A2.n_levels = gAAM.n_levels ∧ A2.scales = gAAM.scales ∧
      A2.transform = gAAM.transform ∧ A2.features = gAAM.features ∧
      ∀ env sw aw level, A2.instanceFull env sw aw level =
        gAAM.instanceFull env sw aw level) := by
  have hwfg : gAAM.wf := ⟨⟨rfl, rfl, rfl, rfl⟩, fun _ => ⟨[10], rfl⟩⟩
  exact ⟨hwfg, C10_persist_restore_round_trip gAAM hwfg⟩
